import Mathlib

/-!
Verification of the time-distortion-map engine.

The TypeScript sources are shallowly embedded:
  namespace Statistical        -- src/utils/statistical.ts        (rationals: all ops are field ops)
  namespace TimeDistortionMap  -- src/components/Map/TimeDistortionMap.tsx  (reals: trigonometry)
  namespace Distortion         -- src/components/Map/utils/distortion.ts    (reals: trigonometry)
  namespace Visualization      -- src/utils/visualization.ts      (reals: square roots)

JavaScript numbers are modelled as exact rationals or reals; where a JS
division can produce NaN or an infinity (denominator zero) the model
returns an Option value, with none standing for the non-finite result.
External turf.js geometry (convex hull, buffer) is modelled either
abstractly (an arbitrary function that may return null or throw) or by the
mathematical convex hull, as documented at each definition.
-/

namespace Statistical

/-- GridPoint of statistical.ts: an id, (lng, lat) coordinates and an
optional travel time. -/
structure GridPoint where
  id : String
  coordinates : ℚ × ℚ
  travelTime : Option ℚ := none
deriving DecidableEq, Repr

instance : Inhabited GridPoint := ⟨⟨"", (0, 0), none⟩⟩

/-- The idiom "point.travelTime || 0" of the source: a missing travel time
is read as 0. -/
def t0 (p : GridPoint) : ℚ := p.travelTime.getD 0

/-- JS division a / b. For b = 0 the JS result is NaN or an infinity;
the model returns none in that case. -/
def divJS (a b : ℚ) : Option ℚ := if b = 0 then none else some (a / b)

/-- Math.max over a spread non-empty list (the empty case, -Infinity in JS,
is modelled as 0; every claim below applies it to a non-empty list). -/
def jsMax : List ℚ → ℚ
  | [] => 0
  | x :: xs => xs.foldl max x

/-- Math.min over a spread non-empty list (the empty case, Infinity in JS,
is modelled as 0; every claim below applies it to a non-empty list). -/
def jsMin : List ℚ → ℚ
  | [] => 0
  | x :: xs => xs.foldl min x

/-- Heatmap sample produced by generateHeatmapData: coordinates plus a
normalized intensity (none when the JS division produced NaN). -/
structure HeatSample where
  coordinates : ℚ × ℚ
  intensity : Option ℚ
deriving DecidableEq, Repr

/-- generateHeatmapData of statistical.ts: normalize each point's travel
time by the sample's own min and max.  The source divides by
(maxTime - minTime) with no guard. -/
def generateHeatmapData (points : List GridPoint) : List HeatSample :=
  let maxTime := jsMax (points.map fun p => t0 p)
  let minTime := jsMin (points.map fun p => t0 p)
  points.map fun point =>
    { coordinates := point.coordinates
      intensity := divJS (t0 point - minTime) (maxTime - minTime) }

/-- calculateAverageTime of statistical.ts: mean of the travel times,
missing values read as 0. -/
def calculateAverageTime (points : List GridPoint) : ℚ :=
  let times := points.map fun p => t0 p
  times.sum / times.length

/-- calculateConnectivity of statistical.ts: for each index i, the number
of other indices j whose point's travel time is below the threshold.
The source's filter callback receives (element, index); the element's
travel time (not the i-th one's) is tested. -/
def calculateConnectivity (points : List GridPoint) (timeThreshold : ℚ) : List ℕ :=
  points.mapIdx fun i _ =>
    (points.enum.filter fun jp =>
      decide (¬ jp.1 = i) && decide (t0 jp.2 < timeThreshold)).length

/-- findCentralPoints of statistical.ts: each connectivity value divided by
the maximum connectivity.  The source divides with no guard, so an
all-zero connectivity list yields NaN (modelled none) everywhere. -/
def findCentralPoints (points : List GridPoint) (timeThreshold : ℚ) : List (Option ℚ) :=
  let connectivity := calculateConnectivity points timeThreshold
  let maxConnectivity := jsMax (connectivity.map fun c => (c : ℚ))
  points.mapIdx fun i _ => divJS ((connectivity.getD i 0 : ℕ) : ℚ) maxConnectivity

/-- Isochrone band: a threshold together with a polygon ring (empty when no
region could be built). -/
structure IsochroneBand where
  threshold : ℚ
  coordinates : List (ℚ × ℚ)
deriving DecidableEq, Repr

/-- calculateIsochrones of statistical.ts.  The turf.js geometry is
abstracted: convex maps the accessible coordinates to Except Unit
(Option ring), where .error models a thrown exception (caught by the
source's try/catch) and .ok none models turf.convex returning null;
buffer likewise models turf.buffer at the fixed 0.1-mile margin together
with the extraction of the outer ring.  The Lean function is total, which
is the model of the source's catch-all: it never propagates a failure. -/
def calculateIsochrones
    (convex : List (ℚ × ℚ) → Except Unit (Option (List (ℚ × ℚ))))
    (buffer : List (ℚ × ℚ) → Except Unit (Option (List (ℚ × ℚ))))
    (points : List GridPoint) (timeThresholds : List ℚ) : List IsochroneBand :=
  timeThresholds.map fun threshold =>
    let accessiblePoints :=
      (points.filter fun point => decide (t0 point ≤ threshold)).map fun point =>
        point.coordinates
    if accessiblePoints.length < 3 then ⟨threshold, []⟩
    else
      match convex accessiblePoints with
      | .error _ => ⟨threshold, []⟩
      | .ok none => ⟨threshold, []⟩
      | .ok (some hull) =>
        match buffer hull with
        | .error _ => ⟨threshold, []⟩
        | .ok none => ⟨threshold, []⟩
        | .ok (some ring) => ⟨threshold, ring⟩

/-- Coordinates of a grid point as a point of the real plane. -/
def coordR (p : GridPoint) : ℝ × ℝ := ((p.coordinates.1 : ℝ), (p.coordinates.2 : ℝ))

/-- calculateAreaCoverage of statistical.ts.  turf.convex and turf.area are
modelled by their mathematical contract: the convex hull of the accessible
coordinates in the real plane and its Lebesgue area, scaled by the
source's square-meters-to-square-miles factor 3.861e-7.  turf.convex
returning null on a degenerate (collinear) input corresponds to hull area
0, which the model also returns. -/
noncomputable def calculateAreaCoverage (points : List GridPoint) (timeThreshold : ℚ) : ℝ :=
  let accessiblePoints := points.filter fun p => decide (t0 p ≤ timeThreshold)
  if accessiblePoints.length < 3 then 0
  else
    (MeasureTheory.volume
      (convexHull ℝ ((fun p => coordR p) '' { p | p ∈ accessiblePoints }))).toReal * 3.861e-7

end Statistical

/-! ### JavaScript Math modelled over the reals -/

/-- JS Math.trunc: round toward zero. -/
noncomputable def jsTrunc (r : ℝ) : ℤ := if 0 ≤ r then ⌊r⌋ else ⌈r⌉

/-- JS remainder a % b (sign follows the dividend): a - b * trunc (a / b). -/
noncomputable def jsRem (a b : ℝ) : ℝ := a - b * jsTrunc (a / b)

/-- JS Math.atan2, by its case specification (Math.atan2 0 0 = 0). -/
noncomputable def atan2 (y x : ℝ) : ℝ :=
  if 0 < x then Real.arctan (y / x)
  else if x < 0 then
    (if 0 ≤ y then Real.arctan (y / x) + Real.pi else Real.arctan (y / x) - Real.pi)
  else
    (if 0 < y then Real.pi / 2 else if y < 0 then -(Real.pi / 2) else 0)

/-! ### turf.distance (haversine, miles)

turf.js computes, for coordinates (lng, lat) in degrees:
  dLat = degreesToRadians (lat2 - lat1), dLon = degreesToRadians (lng2 - lng1),
  a = sin (dLat / 2) ^ 2 + sin (dLon / 2) ^ 2 * cos lat1 * cos lat2,
  distance = 2 * atan2 (sqrt a) (sqrt (1 - a)) * earthRadius,
with degreesToRadians d = (d % 360) * pi / 180 and, for miles,
earthRadius = 6371008.8 / 1609.344. -/

/-- turf degreesToRadians: degrees % 360, then scaled by pi / 180. -/
noncomputable def degreesToRadians (degrees : ℝ) : ℝ :=
  jsRem degrees 360 * Real.pi / 180

/-- turf.distance between two (lng, lat) pairs, in miles. -/
noncomputable def turfDistance (c1 c2 : ℝ × ℝ) : ℝ :=
  let dLat := degreesToRadians (c2.2 - c1.2)
  let dLon := degreesToRadians (c2.1 - c1.1)
  let lat1 := degreesToRadians c1.2
  let lat2 := degreesToRadians c2.2
  let a := Real.sin (dLat / 2) ^ 2 + Real.sin (dLon / 2) ^ 2 * Real.cos lat1 * Real.cos lat2
  2 * atan2 (Real.sqrt a) (Real.sqrt (1 - a)) * (6371008.8 / 1609.344)

namespace TimeDistortionMap

/-- GridPoint of TimeDistortionMap.tsx: (lng, lat) coordinates, the
optional original coordinates, travel time, and animation progress. -/
structure GridPoint where
  id : String
  coordinates : ℝ × ℝ
  originalCoordinates : Option (ℝ × ℝ) := none
  travelTime : Option ℝ := none
  animationProgress : Option ℝ := none

instance : Inhabited GridPoint := ⟨⟨"", (0, 0), none, none, none⟩⟩

/-- distortPoints of TimeDistortionMap.tsx: push each point radially away
from the first point by (mean of its time-matrix row / 60) *
distortionFactor, and record that mean as its travelTime. -/
noncomputable def distortPoints (points : List GridPoint) (timeMatrix : List (List ℝ))
    (distortionFactor : ℝ) : List GridPoint :=
  points.mapIdx fun i point =>
    let avgTime := (timeMatrix.getD i []).sum / points.length
    let scaleFactor := avgTime / 60 * distortionFactor
    let centerPoint := points.headD point
    let direction := atan2 (point.coordinates.2 - centerPoint.coordinates.2)
      (point.coordinates.1 - centerPoint.coordinates.1)
    { point with
      coordinates := (point.coordinates.1 + Real.cos direction * scaleFactor,
        point.coordinates.2 + Real.sin direction * scaleFactor)
      travelTime := some avgTime }

/-- generateTimeMatrix of TimeDistortionMap.tsx: pairwise turf distances in
miles, converted to minutes at 30 mph. -/
noncomputable def generateTimeMatrix (points : List GridPoint) : List (List ℝ) :=
  points.map fun point1 =>
    points.map fun point2 =>
      turfDistance point1.coordinates point2.coordinates / 30 * 60

end TimeDistortionMap

namespace Distortion

/-- GridPoint of utils/distortion.ts.  The declared interface has only id,
coordinates and originalCoordinates; an optional travelTime field is
carried here because the JS spread in distortPoints preserves whatever
fields the runtime value has, which is what claim C8 is about. -/
structure GridPoint where
  id : String
  coordinates : ℝ × ℝ
  originalCoordinates : Option (ℝ × ℝ) := none
  travelTime : Option ℝ := none

instance : Inhabited GridPoint := ⟨⟨"", (0, 0), none, none⟩⟩

/-- distortPoints of utils/distortion.ts (the executed tail of the
function; the distance matrix and centering matrix H it builds first are
dead values, and the MDS computation is commented out in the source).
It moves each point radially by avgTime / 60 and returns the spread
{ ...point, coordinates }, leaving every other field unchanged: in
particular it never writes travelTime. -/
noncomputable def distortPoints (points : List GridPoint)
    (timeMatrix : List (List ℝ)) : List GridPoint :=
  points.mapIdx fun i point =>
    let avgTime := (timeMatrix.getD i []).sum / points.length
    let distortionFactor := avgTime / 60
    let centerPoint := points.headD point
    let direction := atan2 (point.coordinates.2 - centerPoint.coordinates.2)
      (point.coordinates.1 - centerPoint.coordinates.1)
    { point with
      coordinates := (point.coordinates.1 + Real.cos direction * distortionFactor,
        point.coordinates.2 + Real.sin direction * distortionFactor) }

end Distortion

namespace Visualization

/-- Point of visualization.ts. -/
structure Point where
  x : ℝ
  y : ℝ

instance : Inhabited Point := ⟨⟨0, 0⟩⟩

/-- StreamlineOptions of visualization.ts, with the source's defaults. -/
structure StreamlineOptions where
  stepSize : ℝ := 0.1
  maxSteps : ℕ := 1000
  lineLength : ℝ := 10

/-- interpolateVector of createStreamlines: nearest-cell lookup of the
vector field.  width and height are the field's dimensions (the source
reads vectorField[0].length for the height, modelled as the head row's
length); an index outside [0, width-1) x [0, height-1) yields the zero
vector. -/
noncomputable def interpolateVector (vectorField : List (List Point))
    (b0 b1 b2 b3 x y : ℝ) : Point :=
  let width := vectorField.length
  let height := (vectorField.headD []).length
  let i : ℤ := ⌊(x - b0) / (b2 - b0) * ((width : ℝ) - 1)⌋
  let j : ℤ := ⌊(y - b1) / (b3 - b1) * ((height : ℝ) - 1)⌋
  if i < 0 ∨ (width : ℤ) - 1 ≤ i ∨ j < 0 ∨ (height : ℤ) - 1 ≤ j then ⟨0, 0⟩
  else ((vectorField.getD i.toNat []).getD j.toNat ⟨0, 0⟩)

/-- Loop body of integrateLine, with the remaining iteration budget as
fuel.  Per iteration: sample the field (the source's dead branch for a
null vector cannot fire, since interpolateVector always yields a value);
stop if the magnitude is below 1e-6; advance one unit-normalized Euler
step; stop if the new position leaves the bounds; append it; stop if
line.length * stepSize exceeds lineLength. -/
noncomputable def integrateGo (vectorField : List (List Point))
    (b0 b1 b2 b3 stepSize lineLength : ℝ) :
    ℕ → ℝ → ℝ → List Point → List Point
  | 0, _, _, line => line
  | fuel + 1, x, y, line =>
    let vector := interpolateVector vectorField b0 b1 b2 b3 x y
    let magnitude := Real.sqrt (vector.x * vector.x + vector.y * vector.y)
    if magnitude < 1e-6 then line
    else
      let x' := x + vector.x / magnitude * stepSize
      let y' := y + vector.y / magnitude * stepSize
      if x' < b0 ∨ x' > b2 ∨ y' < b1 ∨ y' > b3 then line
      else
        let line' := line ++ [⟨x', y'⟩]
        if ((line'.length : ℝ)) * stepSize > lineLength then line'
        else integrateGo vectorField b0 b1 b2 b3 stepSize lineLength fuel x' y' line'

/-- integrateLine of createStreamlines: start from the seed and iterate at
most maxSteps times. -/
noncomputable def integrateLine (vectorField : List (List Point))
    (b0 b1 b2 b3 stepSize : ℝ) (maxSteps : ℕ) (lineLength startX startY : ℝ) : List Point :=
  integrateGo vectorField b0 b1 b2 b3 stepSize lineLength maxSteps startX startY
    [⟨startX, startY⟩]

/-- createStreamlines of visualization.ts: integrate one line from each
seed of a fixed 10 x 10 lattice spanning the bounds, keeping the lines
that advanced at least one step. -/
noncomputable def createStreamlines (vectorField : List (List Point))
    (b0 b1 b2 b3 : ℝ) (options : StreamlineOptions) : List (List Point) :=
  let seedDensity : ℕ := 10
  let seedPoints : List Point :=
    (List.range seedDensity).flatMap fun (i : ℕ) =>
      (List.range seedDensity).map fun (j : ℕ) =>
        ⟨b0 + (b2 - b0) * ((i : ℝ) + 0.5) / (seedDensity : ℝ),
         b1 + (b3 - b1) * ((j : ℝ) + 0.5) / (seedDensity : ℝ)⟩
  (seedPoints.map fun seed =>
    integrateLine vectorField b0 b1 b2 b3 options.stepSize options.maxSteps
      options.lineLength seed.x seed.y).filter fun line => decide (1 < line.length)

/-- A 2 x 2 vector field whose every cell is the uniform vector (1, 0);
the concrete field used by the streamline scenarios. -/
noncomputable def uniformField : List (List Point) :=
  [[⟨1, 0⟩, ⟨1, 0⟩], [⟨1, 0⟩, ⟨1, 0⟩]]

end Visualization

/-! ### Helper lemmas on the JavaScript Math model -/

theorem Visualization.Point.ext_iff' {p q : Visualization.Point} :
    p = q ↔ p.x = q.x ∧ p.y = q.y := by
  cases p; cases q; simp

theorem jsTrunc_zero : jsTrunc 0 = 0 := by simp [jsTrunc]

theorem jsTrunc_neg (r : ℝ) : jsTrunc (-r) = - jsTrunc r := by
  rcases lt_trichotomy r 0 with h | h | h
  · rw [jsTrunc, jsTrunc, if_pos (by linarith), if_neg (by linarith), Int.floor_neg]
  · simp [h, jsTrunc]
  · rw [jsTrunc, jsTrunc, if_neg (by linarith), if_pos (by linarith), Int.ceil_neg]

theorem jsRem_zero (b : ℝ) : jsRem 0 b = 0 := by
  simp [jsRem, jsTrunc_zero]

theorem jsRem_neg (a b : ℝ) : jsRem (-a) b = - jsRem a b := by
  rw [jsRem, jsRem, neg_div, jsTrunc_neg]
  push_cast
  ring

theorem atan2_nonneg {y : ℝ} (x : ℝ) (hy : 0 ≤ y) : 0 ≤ atan2 y x := by
  have hpi := Real.pi_pos
  have harc := Real.neg_pi_div_two_lt_arctan (y / x)
  unfold atan2
  split_ifs with h1 h2 h3 h4
  · rw [← Real.arctan_zero]
    exact Real.arctan_strictMono.monotone (div_nonneg hy h1.le)
  all_goals linarith

theorem atan2_zero_of_pos {x : ℝ} (hx : 0 < x) : atan2 0 x = 0 := by
  rw [atan2, if_pos hx, zero_div, Real.arctan_zero]

theorem degreesToRadians_zero : degreesToRadians 0 = 0 := by
  simp [degreesToRadians, jsRem_zero]

theorem degreesToRadians_neg (d : ℝ) : degreesToRadians (-d) = - degreesToRadians d := by
  rw [degreesToRadians, degreesToRadians, jsRem_neg]
  ring

theorem turfDistance_comm (c1 c2 : ℝ × ℝ) : turfDistance c1 c2 = turfDistance c2 c1 := by
  simp only [turfDistance]
  have hLat : Real.sin (degreesToRadians (c2.2 - c1.2) / 2) ^ 2
      = Real.sin (degreesToRadians (c1.2 - c2.2) / 2) ^ 2 := by
    rw [show c1.2 - c2.2 = -(c2.2 - c1.2) by ring, degreesToRadians_neg, neg_div,
      Real.sin_neg, neg_sq]
  have hLon : Real.sin (degreesToRadians (c2.1 - c1.1) / 2) ^ 2
      = Real.sin (degreesToRadians (c1.1 - c2.1) / 2) ^ 2 := by
    rw [show c1.1 - c2.1 = -(c2.1 - c1.1) by ring, degreesToRadians_neg, neg_div,
      Real.sin_neg, neg_sq]
  rw [hLat, hLon]
  ring_nf

theorem turfDistance_self (c : ℝ × ℝ) : turfDistance c c = 0 := by
  simp only [turfDistance]
  simp only [sub_self, degreesToRadians_zero, zero_div, Real.sin_zero]
  norm_num [Real.sqrt_one, atan2_zero_of_pos]

theorem turfDistance_nonneg (c1 c2 : ℝ × ℝ) : 0 ≤ turfDistance c1 c2 := by
  simp only [turfDistance]
  have h := atan2_nonneg
    (Real.sqrt (1 - (Real.sin (degreesToRadians (c2.2 - c1.2) / 2) ^ 2 +
      Real.sin (degreesToRadians (c2.1 - c1.1) / 2) ^ 2 *
        Real.cos (degreesToRadians c1.2) * Real.cos (degreesToRadians c2.2))))
    (Real.sqrt_nonneg (Real.sin (degreesToRadians (c2.2 - c1.2) / 2) ^ 2 +
      Real.sin (degreesToRadians (c2.1 - c1.1) / 2) ^ 2 *
        Real.cos (degreesToRadians c1.2) * Real.cos (degreesToRadians c2.2)))
  positivity

/-! ### Claims C4 and C5: divide-by-zero degeneracies in normalization -/

/-- C4: the claim requires that in the degenerate case max == min every
sample gets intensity 0, never NaN.  The code divides by (max - min) with
no guard, so on a constant sample set (here two points with travelTime 5)
every intensity is the JS value 0/0 = NaN (none in this model), not 0. -/
theorem claim_C4_heatmap_constant_set_gives_nan :
    (Statistical.generateHeatmapData
        [⟨"a", (0, 0), some 5⟩, ⟨"b", (1, 1), some 5⟩]).map
      (fun s => s.intensity) = [none, none] := by
  norm_num [Statistical.generateHeatmapData, Statistical.jsMax, Statistical.jsMin,
    Statistical.t0, Statistical.divJS]

/-- C5: the claim requires that when every connectivity value is 0 the
centrality of every point is 0, never NaN.  The code divides by
max(connectivity) with no guard: for two points whose travel times (30)
are not below the 20-minute threshold, every connectivity is 0 and every
centrality is the JS value 0/0 = NaN (none in this model), not 0. -/
theorem claim_C5_centrality_all_zero_gives_nan :
    Statistical.findCentralPoints
      [⟨"a", (0, 0), some 30⟩, ⟨"b", (1, 0), some 30⟩] 20 = [none, none] := by
  norm_num [Statistical.findCentralPoints, Statistical.calculateConnectivity,
    Statistical.jsMax, Statistical.t0, Statistical.divJS, List.mapIdx_cons,
    List.enum, List.enumFrom, List.filter]

/-! ### Claim C6: isochrone band structure and error handling -/

/-- C6: calculateIsochrones returns exactly one band per threshold, in the
input order (part one: the thresholds of the result are the input list);
a threshold whose accessible set has fewer than 3 points yields the empty
band, and a null hull, a null buffer, or a thrown exception (the abstract
convex and buffer arguments model the turf.js calls inside the source's
try/catch) also yield the empty band.  The Lean function is total: the
model of "the function itself never throws". -/
theorem claim_C6_isochrones_error_handling
    (convex buffer : List (ℚ × ℚ) → Except Unit (Option (List (ℚ × ℚ))))
    (points : List Statistical.GridPoint) (timeThresholds : List ℚ) :
    ((Statistical.calculateIsochrones convex buffer points timeThresholds).map
      fun band => band.threshold) = timeThresholds
    ∧ ∀ i, i < timeThresholds.length →
      ((((points.filter fun p => decide (Statistical.t0 p ≤ timeThresholds.getD i 0)).map
            fun p => p.coordinates).length < 3 →
          ((Statistical.calculateIsochrones convex buffer points timeThresholds).getD i
            ⟨0, []⟩).coordinates = [])
      ∧ (convex ((points.filter fun p =>
            decide (Statistical.t0 p ≤ timeThresholds.getD i 0)).map
            fun p => p.coordinates) = .error () →
          ((Statistical.calculateIsochrones convex buffer points timeThresholds).getD i
            ⟨0, []⟩).coordinates = [])
      ∧ (convex ((points.filter fun p =>
            decide (Statistical.t0 p ≤ timeThresholds.getD i 0)).map
            fun p => p.coordinates) = .ok none →
          ((Statistical.calculateIsochrones convex buffer points timeThresholds).getD i
            ⟨0, []⟩).coordinates = [])
      ∧ ∀ hull, convex ((points.filter fun p =>
            decide (Statistical.t0 p ≤ timeThresholds.getD i 0)).map
            fun p => p.coordinates) = .ok (some hull) →
          (buffer hull = .error () ∨ buffer hull = .ok none) →
          ((Statistical.calculateIsochrones convex buffer points timeThresholds).getD i
            ⟨0, []⟩).coordinates = []) := by
  constructor
  · rw [Statistical.calculateIsochrones, List.map_map]
    have hthr : ∀ t : ℚ, ((fun threshold =>
        (let accessiblePoints :=
          (points.filter fun point => decide (Statistical.t0 point ≤ threshold)).map
            fun point => point.coordinates
         if accessiblePoints.length < 3 then (⟨threshold, []⟩ : Statistical.IsochroneBand)
         else
           match convex accessiblePoints with
           | .error _ => ⟨threshold, []⟩
           | .ok none => ⟨threshold, []⟩
           | .ok (some hull) =>
             match buffer hull with
             | .error _ => ⟨threshold, []⟩
             | .ok none => ⟨threshold, []⟩
             | .ok (some ring) => ⟨threshold, ring⟩)) t).threshold = t := by
      intro t
      dsimp only
      split
      · rfl
      · split
        · rfl
        · rfl
        · split <;> rfl
    calc (timeThresholds.map _) = timeThresholds.map id := List.map_congr_left fun t _ => hthr t
      _ = timeThresholds := List.map_id _
  · intro i hi
    have hentry : (Statistical.calculateIsochrones convex buffer points timeThresholds).getD i
        ⟨0, []⟩ =
        (let t := timeThresholds.getD i 0
         let accessiblePoints :=
          (points.filter fun point => decide (Statistical.t0 point ≤ t)).map
            fun point => point.coordinates
         if accessiblePoints.length < 3 then (⟨t, []⟩ : Statistical.IsochroneBand)
         else
           match convex accessiblePoints with
           | .error _ => ⟨t, []⟩
           | .ok none => ⟨t, []⟩
           | .ok (some hull) =>
             match buffer hull with
             | .error _ => ⟨t, []⟩
             | .ok none => ⟨t, []⟩
             | .ok (some ring) => ⟨t, ring⟩) := by
      rw [Statistical.calculateIsochrones, List.getD_eq_getElem?_getD, List.getElem?_map,
        List.getElem?_eq_getElem hi, List.getD_eq_getElem?_getD, List.getElem?_eq_getElem hi]
      rfl
    rw [hentry]
    dsimp only
    refine ⟨fun hlt => ?_, fun herr => ?_, fun hnone => ?_, fun hull hok hbuf => ?_⟩
    · rw [if_pos hlt]
    · by_cases hlt : ((points.filter fun p =>
          decide (Statistical.t0 p ≤ timeThresholds.getD i 0)).map
          fun p => p.coordinates).length < 3
      · rw [if_pos hlt]
      · rw [if_neg hlt, herr]
    · by_cases hlt : ((points.filter fun p =>
          decide (Statistical.t0 p ≤ timeThresholds.getD i 0)).map
          fun p => p.coordinates).length < 3
      · rw [if_pos hlt]
      · rw [if_neg hlt, hnone]
    · by_cases hlt : ((points.filter fun p =>
          decide (Statistical.t0 p ≤ timeThresholds.getD i 0)).map
          fun p => p.coordinates).length < 3
      · rw [if_pos hlt]
      · rw [if_neg hlt, hok]
        rcases hbuf with hb | hb <;> simp only [hb]

/-- Witness for C6 at a concrete input: the empty point list, one
threshold, and a geometry that always throws. -/
theorem claim_C6_isochrones_error_handling_witness :
    ((Statistical.calculateIsochrones (fun _ => Except.error ()) (fun _ => Except.error ())
      [] [5]).map fun band => band.threshold) = [5]
    ∧ ((Statistical.calculateIsochrones (fun _ => Except.error ()) (fun _ => Except.error ())
      [] [5]).getD 0 ⟨0, []⟩).coordinates = [] := by
  have h := claim_C6_isochrones_error_handling (fun _ => Except.error ())
    (fun _ => Except.error ()) [] [5]
  exact ⟨h.1, (h.2 0 (by norm_num)).1 (by norm_num)⟩

/-! ### Claim C10: a missing travelTime reads as 0 everywhere -/

/-- C10: a point with no travelTime is read as travel time 0 by every
metric: it passes the accessibility filter of calculateIsochrones and of
calculateAreaCoverage for every threshold t with 0 <= t (and so its
coordinates enter the hull input, stated here as membership in the convex
hull used by calculateAreaCoverage); in calculateConnectivity it is
counted as connected for every positive threshold and every other index;
and in calculateAverageTime it contributes exactly 0 (replacing its
travelTime by some 0 leaves the mean unchanged). -/
theorem claim_C10_missing_travelTime_reads_as_zero
    (points : List Statistical.GridPoint) (p : Statistical.GridPoint)
    (hnone : p.travelTime = none) :
    (∀ t : ℚ, 0 ≤ t → p ∈ points →
      p ∈ (points.filter fun q => decide (Statistical.t0 q ≤ t))
      ∧ p.coordinates ∈ ((points.filter fun q => decide (Statistical.t0 q ≤ t)).map
          fun q => q.coordinates)
      ∧ Statistical.coordR p ∈ convexHull ℝ ((fun q => Statistical.coordR q) ''
          { q | q ∈ points.filter fun q => decide (Statistical.t0 q ≤ t) }))
    ∧ (∀ th : ℚ, 0 < th → ∀ i j : ℕ, j < points.length → points.getD j default = p →
        ¬ j = i →
        (j, p) ∈ points.enum.filter fun jp =>
          decide (¬ jp.1 = i) && decide (Statistical.t0 jp.2 < th))
    ∧ (∀ pre post, points = pre ++ p :: post →
        Statistical.calculateAverageTime points
        = Statistical.calculateAverageTime (pre ++ { p with travelTime := some 0 } :: post)) := by
  have ht0 : Statistical.t0 p = 0 := by simp [Statistical.t0, hnone]
  refine ⟨fun t ht hp => ?_, fun th hth i j hj hgd hne => ?_, fun pre post hsplit => ?_⟩
  · have hmem : p ∈ points.filter fun q => decide (Statistical.t0 q ≤ t) := by
      rw [List.mem_filter]
      exact ⟨hp, by simp [ht0, ht]⟩
    refine ⟨hmem, List.mem_map_of_mem _ hmem, ?_⟩
    exact subset_convexHull ℝ _ (Set.mem_image_of_mem _ hmem)
  · rw [List.mem_filter]
    constructor
    · have : points.enum[j]? = some (j, p) := by
        rw [List.getElem?_enum, List.getElem?_eq_getElem hj]
        rw [List.getD_eq_getElem?_getD, List.getElem?_eq_getElem hj] at hgd
        simp_all
      exact List.getElem?_mem this
    · simp [hne, ht0, hth]
  · rw [Statistical.calculateAverageTime, Statistical.calculateAverageTime, hsplit]
    have h2 : Statistical.t0 { p with travelTime := some 0 } = 0 := by
      simp [Statistical.t0]
    simp [List.map_append, List.sum_append, ht0, h2]

/-- Witness for C10 at a concrete input: a two-point list whose second
point has no travelTime, checked against threshold 5 (filters), threshold
7 with indices i = 0, j = 1 (connectivity), and the mean. -/
theorem claim_C10_missing_travelTime_reads_as_zero_witness :
    ((⟨"p", (0, 0), none⟩ : Statistical.GridPoint) ∈
        ([⟨"q", (1, 1), some 3⟩, ⟨"p", (0, 0), none⟩] : List Statistical.GridPoint).filter
          fun q => decide (Statistical.t0 q ≤ 5))
    ∧ ((1, (⟨"p", (0, 0), none⟩ : Statistical.GridPoint)) ∈
        ([⟨"q", (1, 1), some 3⟩, ⟨"p", (0, 0), none⟩] : List Statistical.GridPoint).enum.filter
          fun jp => decide (¬ jp.1 = 0) && decide (Statistical.t0 jp.2 < 7))
    ∧ Statistical.calculateAverageTime [⟨"q", (1, 1), some 3⟩, ⟨"p", (0, 0), none⟩]
      = Statistical.calculateAverageTime
          [⟨"q", (1, 1), some 3⟩, ⟨"p", (0, 0), some 0⟩] := by
  have h := claim_C10_missing_travelTime_reads_as_zero
    [⟨"q", (1, 1), some 3⟩, ⟨"p", (0, 0), none⟩] ⟨"p", (0, 0), none⟩ rfl
  refine ⟨(h.1 5 (by norm_num) (by simp)).1, ?_, ?_⟩
  · exact h.2.1 7 (by norm_num) 0 1 (by simp) (by simp) (by simp)
  · exact h.2.2 [⟨"q", (1, 1), some 3⟩] [] rfl

/-! ### Claim C7: area coverage is monotone in the threshold -/

/-- C7: for thresholds t1 < t2 the coverage area at t2 is at least the
coverage area at t1: the accessible set for t1 is a sublist of the one
for t2, the convex hull is monotone under set inclusion, and Lebesgue
area is monotone; a threshold whose accessible set has fewer than 3
points contributes 0, which every coverage value dominates. -/
theorem claim_C7_coverage_monotone (points : List Statistical.GridPoint)
    (t1 t2 : ℚ) (h : t1 < t2) :
    Statistical.calculateAreaCoverage points t1 ≤ Statistical.calculateAreaCoverage points t2 := by
  have hsub : (points.filter fun p => decide (Statistical.t0 p ≤ t1)).Sublist
      (points.filter fun p => decide (Statistical.t0 p ≤ t2)) := by
    refine List.monotone_filter_right points ?_
    intro a ha
    simp only [decide_eq_true_eq] at ha ⊢
    linarith
  have hcover_nonneg : ∀ t : ℚ, 0 ≤ Statistical.calculateAreaCoverage points t := by
    intro t
    rw [Statistical.calculateAreaCoverage]
    split_ifs
    · exact le_refl 0
    · positivity
  rw [Statistical.calculateAreaCoverage, Statistical.calculateAreaCoverage]
  by_cases h1 : (points.filter fun p => decide (Statistical.t0 p ≤ t1)).length < 3
  · rw [if_pos h1]
    have := hcover_nonneg t2
    rw [Statistical.calculateAreaCoverage] at this
    exact this
  · have h2 : ¬ (points.filter fun p => decide (Statistical.t0 p ≤ t2)).length < 3 :=
      fun hc => h1 (lt_of_le_of_lt hsub.length_le hc)
    rw [if_neg h1, if_neg h2]
    have hfin : ((fun p => Statistical.coordR p) ''
        { p | p ∈ points.filter fun p => decide (Statistical.t0 p ≤ t2) }).Finite :=
      (points.filter fun p => decide (Statistical.t0 p ≤ t2)).finite_toSet.image _
    have hcpt : IsCompact (convexHull ℝ ((fun p => Statistical.coordR p) ''
        { p | p ∈ points.filter fun p => decide (Statistical.t0 p ≤ t2) })) :=
      hfin.isCompact_convexHull
    have hmono : MeasureTheory.volume (convexHull ℝ ((fun p => Statistical.coordR p) ''
          { p | p ∈ points.filter fun p => decide (Statistical.t0 p ≤ t1) }))
        ≤ MeasureTheory.volume (convexHull ℝ ((fun p => Statistical.coordR p) ''
          { p | p ∈ points.filter fun p => decide (Statistical.t0 p ≤ t2) })) := by
      apply MeasureTheory.measure_mono
      apply convexHull_mono
      apply Set.image_subset
      intro x hx
      exact hsub.subset hx
    have := ENNReal.toReal_mono hcpt.measure_lt_top.ne hmono
    nlinarith [this]

/-- Witness for C7 at a concrete input: the empty point list and
thresholds 0 < 1 (both coverages are 0). -/
theorem claim_C7_coverage_monotone_witness :
    Statistical.calculateAreaCoverage [] 0 ≤ Statistical.calculateAreaCoverage [] 1 :=
  claim_C7_coverage_monotone [] 0 1 (by norm_num)

/-! ### Claim C1: the time matrix is symmetric, zero on the diagonal, and
non-negative -/

/-- Entry (a, b) of the generated time matrix. -/
theorem generateTimeMatrix_entry (points : List TimeDistortionMap.GridPoint)
    (a b : ℕ) (ha : a < points.length) (hb : b < points.length) :
    ((TimeDistortionMap.generateTimeMatrix points).getD a []).getD b 0
      = turfDistance (points.getD a default).coordinates
          (points.getD b default).coordinates / 30 * 60 := by
  simp only [TimeDistortionMap.generateTimeMatrix, List.getD_eq_getElem?_getD,
    List.getElem?_map, List.getElem?_eq_getElem ha, List.getElem?_eq_getElem hb,
    Option.map_some', Option.getD_some]

/-- C1: for valid indices i and j, the matrix given by generateTimeMatrix
satisfies M i j = M j i, M i i = 0 and 0 <= M i j: the haversine distance
is symmetric in its arguments, zero on equal arguments, and non-negative,
and the minutes conversion (divide by 30 mph, times 60) preserves all
three properties. -/
theorem claim_C1_timeMatrix_symmetric_zeroDiag_nonneg
    (points : List TimeDistortionMap.GridPoint) (i j : ℕ)
    (hi : i < points.length) (hj : j < points.length) :
    ((TimeDistortionMap.generateTimeMatrix points).getD i []).getD j 0
      = ((TimeDistortionMap.generateTimeMatrix points).getD j []).getD i 0
    ∧ ((TimeDistortionMap.generateTimeMatrix points).getD i []).getD i 0 = 0
    ∧ 0 ≤ ((TimeDistortionMap.generateTimeMatrix points).getD i []).getD j 0 := by
  rw [generateTimeMatrix_entry points i j hi hj, generateTimeMatrix_entry points j i hj hi,
    generateTimeMatrix_entry points i i hi hi]
  refine ⟨?_, ?_, ?_⟩
  · rw [turfDistance_comm]
  · rw [turfDistance_self]
    norm_num
  · have h := turfDistance_nonneg (points.getD i default).coordinates
      (points.getD j default).coordinates
    positivity

/-- Witness for C1 at a concrete input: a single point, indices 0 and 0. -/
theorem claim_C1_timeMatrix_symmetric_zeroDiag_nonneg_witness :
    ((TimeDistortionMap.generateTimeMatrix [⟨"a", (0, 0), none, none, none⟩]).getD 0 []).getD 0 0
      = ((TimeDistortionMap.generateTimeMatrix [⟨"a", (0, 0), none, none, none⟩]).getD 0
          []).getD 0 0
    ∧ ((TimeDistortionMap.generateTimeMatrix [⟨"a", (0, 0), none, none, none⟩]).getD 0
        []).getD 0 0 = 0
    ∧ 0 ≤ ((TimeDistortionMap.generateTimeMatrix [⟨"a", (0, 0), none, none, none⟩]).getD 0
        []).getD 0 0 :=
  claim_C1_timeMatrix_symmetric_zeroDiag_nonneg [⟨"a", (0, 0), none, none, none⟩] 0 0
    (by simp) (by simp)

/-! ### Claims C3 and C8: the distortion step -/

/-- Entry i of a mapIdx list, through getD, for a valid index. -/
theorem getD_mapIdx {α β : Type _} (l : List α) (F : ℕ → α → β) (i : ℕ)
    (hi : i < l.length) (d : β) (d' : α) :
    (l.mapIdx F).getD i d = F i (l.getD i d') := by
  simp only [List.getD_eq_getElem?_getD, List.getElem?_mapIdx, List.getElem?_eq_getElem hi,
    Option.map_some', Option.getD_some]

/-- Doubling the factor doubles a radial displacement componentwise, and
hence doubles its Euclidean length. -/
theorem radial_displacement_linear (px py c s A f : ℝ) :
    (px + c * (A / 60 * (2 * f)) - px = 2 * (px + c * (A / 60 * f) - px))
    ∧ (py + s * (A / 60 * (2 * f)) - py = 2 * (py + s * (A / 60 * f) - py))
    ∧ Real.sqrt ((px + c * (A / 60 * (2 * f)) - px) ^ 2
        + (py + s * (A / 60 * (2 * f)) - py) ^ 2)
      = 2 * Real.sqrt ((px + c * (A / 60 * f) - px) ^ 2
        + (py + s * (A / 60 * f) - py) ^ 2) := by
  refine ⟨by ring, by ring, ?_⟩
  rw [show (px + c * (A / 60 * (2 * f)) - px) ^ 2 + (py + s * (A / 60 * (2 * f)) - py) ^ 2
      = 2 ^ 2 * ((px + c * (A / 60 * f) - px) ^ 2 + (py + s * (A / 60 * f) - py) ^ 2) by
      ring,
    Real.sqrt_mul (by norm_num) _, Real.sqrt_sq (by norm_num)]

/-- C3: the displacement applied by distortPoints scales exactly linearly
with the distortionFactor: with factor 2 * f each point's displacement is
exactly twice, componentwise and in Euclidean length, the displacement
with factor f (direction and average time do not depend on the factor,
and the scale is avgTime / 60 * factor). -/
theorem claim_C3_displacement_scales_linearly_with_factor
    (points : List TimeDistortionMap.GridPoint) (timeMatrix : List (List ℝ))
    (f : ℝ) (i : ℕ) (hi : i < points.length) :
    (((TimeDistortionMap.distortPoints points timeMatrix (2 * f)).getD i
          default).coordinates.1 - (points.getD i default).coordinates.1
      = 2 * (((TimeDistortionMap.distortPoints points timeMatrix f).getD i
            default).coordinates.1 - (points.getD i default).coordinates.1))
    ∧ (((TimeDistortionMap.distortPoints points timeMatrix (2 * f)).getD i
          default).coordinates.2 - (points.getD i default).coordinates.2
      = 2 * (((TimeDistortionMap.distortPoints points timeMatrix f).getD i
            default).coordinates.2 - (points.getD i default).coordinates.2))
    ∧ Real.sqrt
        ((((TimeDistortionMap.distortPoints points timeMatrix (2 * f)).getD i
            default).coordinates.1 - (points.getD i default).coordinates.1) ^ 2
          + (((TimeDistortionMap.distortPoints points timeMatrix (2 * f)).getD i
            default).coordinates.2 - (points.getD i default).coordinates.2) ^ 2)
      = 2 * Real.sqrt
        ((((TimeDistortionMap.distortPoints points timeMatrix f).getD i
            default).coordinates.1 - (points.getD i default).coordinates.1) ^ 2
          + (((TimeDistortionMap.distortPoints points timeMatrix f).getD i
            default).coordinates.2 - (points.getD i default).coordinates.2) ^ 2) := by
  rw [TimeDistortionMap.distortPoints, TimeDistortionMap.distortPoints,
    getD_mapIdx _ _ i hi _ default, getD_mapIdx _ _ i hi _ default]
  dsimp only
  exact radial_displacement_linear _ _ _ _ _ f

/-- Witness for C3 at a concrete input: one point, one-row matrix,
factor 1, index 0. -/
theorem claim_C3_displacement_scales_linearly_with_factor_witness :
    (((TimeDistortionMap.distortPoints [⟨"a", (3, 4), none, none, none⟩] [[5]] (2 * 1)).getD 0
          default).coordinates.1
        - (([⟨"a", (3, 4), none, none, none⟩] :
            List TimeDistortionMap.GridPoint).getD 0 default).coordinates.1
      = 2 * (((TimeDistortionMap.distortPoints [⟨"a", (3, 4), none, none, none⟩] [[5]] 1).getD 0
            default).coordinates.1
        - (([⟨"a", (3, 4), none, none, none⟩] :
            List TimeDistortionMap.GridPoint).getD 0 default).coordinates.1))
    ∧ (((TimeDistortionMap.distortPoints [⟨"a", (3, 4), none, none, none⟩] [[5]] (2 * 1)).getD 0
          default).coordinates.2
        - (([⟨"a", (3, 4), none, none, none⟩] :
            List TimeDistortionMap.GridPoint).getD 0 default).coordinates.2
      = 2 * (((TimeDistortionMap.distortPoints [⟨"a", (3, 4), none, none, none⟩] [[5]] 1).getD 0
            default).coordinates.2
        - (([⟨"a", (3, 4), none, none, none⟩] :
            List TimeDistortionMap.GridPoint).getD 0 default).coordinates.2))
    ∧ Real.sqrt
        ((((TimeDistortionMap.distortPoints [⟨"a", (3, 4), none, none, none⟩] [[5]] (2 * 1)).getD
            0 default).coordinates.1
          - (([⟨"a", (3, 4), none, none, none⟩] :
              List TimeDistortionMap.GridPoint).getD 0 default).coordinates.1) ^ 2
          + ((((TimeDistortionMap.distortPoints [⟨"a", (3, 4), none, none, none⟩] [[5]]
            (2 * 1)).getD 0 default).coordinates.2
          - (([⟨"a", (3, 4), none, none, none⟩] :
              List TimeDistortionMap.GridPoint).getD 0 default).coordinates.2)) ^ 2)
      = 2 * Real.sqrt
        ((((TimeDistortionMap.distortPoints [⟨"a", (3, 4), none, none, none⟩] [[5]] 1).getD 0
            default).coordinates.1
          - (([⟨"a", (3, 4), none, none, none⟩] :
              List TimeDistortionMap.GridPoint).getD 0 default).coordinates.1) ^ 2
          + ((((TimeDistortionMap.distortPoints [⟨"a", (3, 4), none, none, none⟩] [[5]] 1).getD 0
            default).coordinates.2
          - (([⟨"a", (3, 4), none, none, none⟩] :
              List TimeDistortionMap.GridPoint).getD 0 default).coordinates.2)) ^ 2) :=
  claim_C3_displacement_scales_linearly_with_factor
    [⟨"a", (3, 4), none, none, none⟩] [[5]] 1 0 (by simp)

/-- C8 (amended): the distortPoints of TimeDistortionMap.tsx populates
every point's travelTime with the mean of row i of the time matrix (the
source divides the row sum by the point count, which equals the row
length for a square matrix). -/
theorem claim_C8_travelTime_populated_with_row_mean
    (points : List TimeDistortionMap.GridPoint) (timeMatrix : List (List ℝ))
    (f : ℝ) (i : ℕ) (hi : i < points.length)
    (hrow : (timeMatrix.getD i []).length = points.length) :
    ((TimeDistortionMap.distortPoints points timeMatrix f).getD i default).travelTime
      = some ((timeMatrix.getD i []).sum / ((timeMatrix.getD i []).length : ℝ)) := by
  rw [TimeDistortionMap.distortPoints, getD_mapIdx _ _ i hi _ default]
  dsimp only
  rw [hrow]

/-- Witness for C8 at a concrete input: one point and the square matrix
[[7]]. -/
theorem claim_C8_travelTime_populated_with_row_mean_witness :
    ((TimeDistortionMap.distortPoints [⟨"a", (0, 0), none, none, none⟩] [[7]] 1).getD 0
        default).travelTime
      = some ((([[(7 : ℝ)]]).getD 0 []).sum / ((([[(7 : ℝ)]]).getD 0 []).length : ℝ)) :=
  claim_C8_travelTime_populated_with_row_mean [⟨"a", (0, 0), none, none, none⟩] [[7]] 1 0
    (by simp) (by simp)

/-- C8 counterexample: the distortPoints of utils/distortion.ts does not
populate travelTime: on a point whose travelTime is absent the returned
point's travelTime is still none (the JS spread copies the field
unchanged), refuting the claim for that implementation. -/
theorem claim_C8_counterexample_utils_distortPoints_travelTime_none :
    ((Distortion.distortPoints [⟨"a", (0, 0), none, none⟩] [[0]]).getD 0 default).travelTime
      = none := by
  rw [Distortion.distortPoints, getD_mapIdx _ _ 0 (by simp) _ default]
  rfl

/-! ### Claims C2 and C9: streamline termination, length cap, and the
uniform-field scenario -/

namespace Visualization

/-- Unfolding of one iteration of integrateGo. -/
theorem integrateGo_succ (vectorField : List (List Point)) (b0 b1 b2 b3 s L : ℝ)
    (n : ℕ) (x y : ℝ) (line : List Point) :
    integrateGo vectorField b0 b1 b2 b3 s L (n + 1) x y line =
      (let vector := interpolateVector vectorField b0 b1 b2 b3 x y
       let magnitude := Real.sqrt (vector.x * vector.x + vector.y * vector.y)
       if magnitude < 1e-6 then line
       else
         let x' := x + vector.x / magnitude * s
         let y' := y + vector.y / magnitude * s
         if x' < b0 ∨ x' > b2 ∨ y' < b1 ∨ y' > b3 then line
         else
           let line' := line ++ [⟨x', y'⟩]
           if ((line'.length : ℝ)) * s > L then line'
           else integrateGo vectorField b0 b1 b2 b3 s L n x' y' line') := rfl

/-- The loop adds at most fuel points. -/
theorem integrateGo_length_le (vectorField : List (List Point)) (b0 b1 b2 b3 s L : ℝ) :
    ∀ (fuel : ℕ) (x y : ℝ) (line : List Point),
      (integrateGo vectorField b0 b1 b2 b3 s L fuel x y line).length ≤ line.length + fuel := by
  intro fuel
  induction fuel with
  | zero => intro x y line; simp [integrateGo]
  | succ n ih =>
    intro x y line
    rw [integrateGo_succ]
    dsimp only
    split_ifs
    · omega
    · omega
    · simp only [List.length_append, List.length_cons, List.length_nil]
      omega
    · refine le_trans (ih _ _ _) ?_
      simp only [List.length_append, List.length_cons, List.length_nil]
      omega

/-- The loop never drops points. -/
theorem le_integrateGo_length (vectorField : List (List Point)) (b0 b1 b2 b3 s L : ℝ) :
    ∀ (fuel : ℕ) (x y : ℝ) (line : List Point),
      line.length ≤ (integrateGo vectorField b0 b1 b2 b3 s L fuel x y line).length := by
  intro fuel
  induction fuel with
  | zero => intro x y line; simp [integrateGo]
  | succ n ih =>
    intro x y line
    rw [integrateGo_succ]
    dsimp only
    split_ifs
    · omega
    · omega
    · simp only [List.length_append, List.length_cons, List.length_nil]
      omega
    · refine le_trans ?_ (ih _ _ _)
      simp only [List.length_append, List.length_cons, List.length_nil]
      omega

/-- Cap invariant: if the incoming line satisfies length * s <= L + s then
the result satisfies length * s <= L + 2 * s (a recursive call is only
made when the appended line satisfies length * s <= L, and a final append
adds one s). -/
theorem integrateGo_cap (vectorField : List (List Point)) (b0 b1 b2 b3 s L : ℝ)
    (hs : 0 < s) :
    ∀ (fuel : ℕ) (x y : ℝ) (line : List Point),
      ((line.length : ℝ)) * s ≤ L + s →
      (((integrateGo vectorField b0 b1 b2 b3 s L fuel x y line).length : ℝ)) * s
        ≤ L + 2 * s := by
  intro fuel
  induction fuel with
  | zero =>
    intro x y line hline
    simp only [integrateGo]
    linarith
  | succ n ih =>
    intro x y line hline
    rw [integrateGo_succ]
    dsimp only
    split_ifs with h1 h2 h3
    · linarith
    · linarith
    · simp only [List.length_append, List.length_cons, List.length_nil] at h3 ⊢
      push_cast at h3 ⊢
      linarith
    · apply ih
      simp only [List.length_append, List.length_cons, List.length_nil] at h3 ⊢
      push_cast at h3 ⊢
      linarith

end Visualization

/-- C2 (amended): for every vector field, bounds, and options with
positive stepSize and nonnegative lineLength, every line returned by
createStreamlines took at most maxSteps integration steps, and its
accumulated traversed length (steps times stepSize) is at most
lineLength + stepSize.  (The original claim, with no sign condition on
lineLength, fails: see the counterexample below.) -/
theorem claim_C2_streamlines_terminate_and_respect_cap
    (vectorField : List (List Visualization.Point)) (b0 b1 b2 b3 : ℝ)
    (options : Visualization.StreamlineOptions)
    (hs : 0 < options.stepSize) (hL : 0 ≤ options.lineLength) :
    ∀ line ∈ Visualization.createStreamlines vectorField b0 b1 b2 b3 options,
      line.length - 1 ≤ options.maxSteps
      ∧ ((line.length - 1 : ℕ) : ℝ) * options.stepSize
          ≤ options.lineLength + options.stepSize := by
  intro line hline
  rw [Visualization.createStreamlines] at hline
  simp only [List.mem_filter, List.mem_map, decide_eq_true_eq] at hline
  obtain ⟨⟨seed, hseed, hline_eq⟩, hlen⟩ := hline
  subst hline_eq
  rw [Visualization.integrateLine]
  constructor
  · have h := Visualization.integrateGo_length_le vectorField b0 b1 b2 b3
      options.stepSize options.lineLength options.maxSteps seed.x seed.y
      [⟨seed.x, seed.y⟩]
    simp only [List.length_cons, List.length_nil] at h
    omega
  · have hcap := Visualization.integrateGo_cap vectorField b0 b1 b2 b3
      options.stepSize options.lineLength hs options.maxSteps seed.x seed.y
      [⟨seed.x, seed.y⟩] (by simp; linarith)
    have hge := Visualization.le_integrateGo_length vectorField b0 b1 b2 b3
      options.stepSize options.lineLength options.maxSteps seed.x seed.y
      [⟨seed.x, seed.y⟩]
    simp only [List.length_cons, List.length_nil] at hge
    have hcast : (((Visualization.integrateGo vectorField b0 b1 b2 b3 options.stepSize
        options.lineLength options.maxSteps seed.x seed.y
        [⟨seed.x, seed.y⟩]).length - 1 : ℕ) : ℝ)
        = ((Visualization.integrateGo vectorField b0 b1 b2 b3 options.stepSize
        options.lineLength options.maxSteps seed.x seed.y
        [⟨seed.x, seed.y⟩]).length : ℝ) - 1 := by
      push_cast [hge]
      ring
    rw [hcast]
    nlinarith [hcap]

namespace Visualization

/-- On the uniform 2 x 2 field with bounds (0, 0, 10, 10), any position
inside the bounds samples the vector (1, 0). -/
theorem interpolateVector_uniformField (x y : ℝ) (hx0 : 0 ≤ x) (hx1 : x < 10)
    (hy0 : 0 ≤ y) (hy1 : y < 10) :
    interpolateVector uniformField 0 0 10 10 x y = ⟨1, 0⟩ := by
  have hfl : ∀ z : ℝ, 0 ≤ z → z < 10 →
      ⌊(z - 0) / (10 - 0) * (((uniformField.length : ℝ)) - 1)⌋ = 0 := by
    intro z h0 h1
    have hlen : ((uniformField.length : ℝ)) = 2 := by simp [uniformField]
    rw [hlen, show (z - 0) / (10 - 0) * ((2 : ℝ) - 1) = z / 10 by ring,
      Int.floor_eq_zero_iff]
    constructor
    · positivity
    · rw [div_lt_one (by norm_num)]
      linarith
  have hfl' : ∀ z : ℝ, 0 ≤ z → z < 10 →
      ⌊(z - 0) / (10 - 0) * ((((uniformField.headD []).length : ℝ)) - 1)⌋ = 0 := by
    intro z h0 h1
    have hlen : (((uniformField.headD []).length : ℝ)) = 2 := by simp [uniformField]
    rw [hlen, show (z - 0) / (10 - 0) * ((2 : ℝ) - 1) = z / 10 by ring,
      Int.floor_eq_zero_iff]
    constructor
    · positivity
    · rw [div_lt_one (by norm_num)]
      linarith
  rw [interpolateVector]
  rw [hfl x hx0 hx1, hfl' y hy0 hy1]
  rw [if_neg (by simp [uniformField])]
  simp [uniformField]

/-- One iteration of the loop on the uniform field: the vector is (1, 0),
its magnitude is 1, and the step advances x by stepSize. -/
theorem integrateGo_uniformField_step (s L : ℝ) (n : ℕ) (x y : ℝ) (line : List Point)
    (hx0 : 0 ≤ x) (hx1 : x < 10) (hy0 : 0 ≤ y) (hy1 : y < 10)
    (hxs0 : 0 ≤ x + s) (hxs1 : x + s ≤ 10) :
    integrateGo uniformField 0 0 10 10 s L (n + 1) x y line =
      (if (((line ++ [(⟨x + s, y⟩ : Point)]).length : ℝ)) * s > L
        then line ++ [(⟨x + s, y⟩ : Point)]
       else integrateGo uniformField 0 0 10 10 s L n (x + s) y
        (line ++ [(⟨x + s, y⟩ : Point)])) := by
  rw [integrateGo_succ, interpolateVector_uniformField x y hx0 hx1 hy0 hy1]
  dsimp only
  rw [show Real.sqrt ((1 : ℝ) * 1 + 0 * 0) = 1 by norm_num]
  rw [if_neg (by norm_num : ¬ ((1 : ℝ) < 1e-6))]
  rw [show x + 1 / 1 * s = x + s by ring, show y + 0 / 1 * s = y by ring]
  have hcond : ¬ (x + s < 0 ∨ x + s > 10 ∨ y < 0 ∨ y > 10) := by
    push_neg
    exact ⟨by linarith, by linarith, by linarith, by linarith⟩
  rw [if_neg hcond]

/-- Variant of the step lemma taking the fuel as an equation, convenient
for rewriting at numeric fuel values. -/
theorem integrateGo_uniformField_step' (s L : ℝ) (fuel n : ℕ) (hf : fuel = n + 1)
    (x y : ℝ) (line : List Point)
    (hx0 : 0 ≤ x) (hx1 : x < 10) (hy0 : 0 ≤ y) (hy1 : y < 10)
    (hxs0 : 0 ≤ x + s) (hxs1 : x + s ≤ 10) :
    integrateGo uniformField 0 0 10 10 s L fuel x y line =
      (if (((line ++ [(⟨x + s, y⟩ : Point)]).length : ℝ)) * s > L
        then line ++ [(⟨x + s, y⟩ : Point)]
       else integrateGo uniformField 0 0 10 10 s L n (x + s) y
        (line ++ [(⟨x + s, y⟩ : Point)])) := by
  subst hf
  exact integrateGo_uniformField_step s L n x y line hx0 hx1 hy0 hy1 hxs0 hxs1

/-- On the uniform field with bounds (0, 0, 10, 10), stepSize 1/10,
maxSteps 1 and any lineLength below 2 * (1/10), the line grown from the
first lattice seed (0.5, 0.5) is retained by createStreamlines and equals
[(0.5, 0.5), (0.6, 0.5)]. -/
theorem seed00_line_mem (L : ℝ) (hL : L < 2 * (1 / 10)) :
    ([⟨1/2, 1/2⟩, ⟨3/5, 1/2⟩] : List Point) ∈
      createStreamlines uniformField 0 0 10 10 ⟨1/10, 1, L⟩ := by
  have heval : integrateLine uniformField 0 0 10 10 (1/10) 1 L
      (0 + (10 - 0) * (((0 : ℕ) : ℝ) + 0.5) / ((10 : ℕ) : ℝ))
      (0 + (10 - 0) * (((0 : ℕ) : ℝ) + 0.5) / ((10 : ℕ) : ℝ))
      = [⟨1/2, 1/2⟩, ⟨3/5, 1/2⟩] := by
    rw [integrateLine]
    norm_num
    rw [show (1 : ℕ) = 0 + 1 from rfl,
      integrateGo_uniformField_step (1/10) L 0 _ _ _ (by norm_num) (by norm_num)
        (by norm_num) (by norm_num) (by norm_num) (by norm_num)]
    rw [if_pos (by simp; linarith)]
    norm_num
  rw [createStreamlines]
  dsimp only
  rw [List.range_succ_eq_map]
  simp only [List.flatMap_cons, List.map_cons, List.cons_append]
  rw [List.filter_cons_of_pos (by rw [heval]; simp)]
  rw [heval]
  exact List.mem_cons_self _ _

end Visualization

/-- Witness for C2 at a concrete input: the uniform field, bounds
(0, 0, 10, 10), stepSize 1/10, maxSteps 1, lineLength 0, and the line
grown from the seed (0.5, 0.5). -/
theorem claim_C2_streamlines_terminate_and_respect_cap_witness :
    ([⟨1/2, 1/2⟩, ⟨3/5, 1/2⟩] : List Visualization.Point).length - 1 ≤ 1
    ∧ ((([⟨1/2, 1/2⟩, ⟨3/5, 1/2⟩] : List Visualization.Point).length - 1 : ℕ) : ℝ) * (1 / 10)
        ≤ 0 + 1 / 10 :=
  claim_C2_streamlines_terminate_and_respect_cap Visualization.uniformField 0 0 10 10
    ⟨1/10, 1, 0⟩ (by norm_num) (by norm_num) _
    (Visualization.seed00_line_mem 0 (by norm_num))

/-- C2 counterexample: with a negative lineLength (an option the claim
quantifies over, since it only requires positive stepSize) the cap fails:
on the uniform field with stepSize 1/10, maxSteps 1 and lineLength -1,
the retained line from seed (0.5, 0.5) took 1 step of accumulated length
1/10, which exceeds lineLength + stepSize = -9/10. -/
theorem claim_C2_counterexample_negative_lineLength :
    ¬ ∀ line ∈ Visualization.createStreamlines Visualization.uniformField 0 0 10 10
        ⟨1/10, 1, -1⟩,
      ((line.length - 1 : ℕ) : ℝ) * (1 / 10) ≤ -1 + 1 / 10 := by
  intro h
  have hb := h _ (Visualization.seed00_line_mem (-1) (by norm_num))
  norm_num at hb

/-- Scenario C evaluated: from the seed (5, 5) at the center of bounds
(0, 0, 10, 10), uniform field (1, 0), stepSize 1/10, lineLength 1 (and a
fuel of 12 > 10 steps), the integrated line is the seed plus 10 steps of
1/10 along +x: 11 points ending at x = 6.  The loop only breaks once the
appended point makes line.length * stepSize = 1.1 exceed lineLength. -/
theorem integrateLine_scenarioC :
    Visualization.integrateLine Visualization.uniformField 0 0 10 10 (1/10) 12 1 5 5
      = [⟨5, 5⟩, ⟨51/10, 5⟩, ⟨26/5, 5⟩, ⟨53/10, 5⟩, ⟨27/5, 5⟩, ⟨11/2, 5⟩,
         ⟨28/5, 5⟩, ⟨57/10, 5⟩, ⟨29/5, 5⟩, ⟨59/10, 5⟩, ⟨6, 5⟩] := by
  rw [Visualization.integrateLine]
  rw [Visualization.integrateGo_uniformField_step' (1/10) 1 12 11 rfl _ _ _
      (by norm_num) (by norm_num) (by norm_num) (by norm_num) (by norm_num) (by norm_num)]
  norm_num
  rw [Visualization.integrateGo_uniformField_step' (1/10) 1 11 10 rfl _ _ _
      (by norm_num) (by norm_num) (by norm_num) (by norm_num) (by norm_num) (by norm_num)]
  norm_num
  rw [Visualization.integrateGo_uniformField_step' (1/10) 1 10 9 rfl _ _ _
      (by norm_num) (by norm_num) (by norm_num) (by norm_num) (by norm_num) (by norm_num)]
  norm_num
  rw [Visualization.integrateGo_uniformField_step' (1/10) 1 9 8 rfl _ _ _
      (by norm_num) (by norm_num) (by norm_num) (by norm_num) (by norm_num) (by norm_num)]
  norm_num
  rw [Visualization.integrateGo_uniformField_step' (1/10) 1 8 7 rfl _ _ _
      (by norm_num) (by norm_num) (by norm_num) (by norm_num) (by norm_num) (by norm_num)]
  norm_num
  rw [Visualization.integrateGo_uniformField_step' (1/10) 1 7 6 rfl _ _ _
      (by norm_num) (by norm_num) (by norm_num) (by norm_num) (by norm_num) (by norm_num)]
  norm_num
  rw [Visualization.integrateGo_uniformField_step' (1/10) 1 6 5 rfl _ _ _
      (by norm_num) (by norm_num) (by norm_num) (by norm_num) (by norm_num) (by norm_num)]
  norm_num
  rw [Visualization.integrateGo_uniformField_step' (1/10) 1 5 4 rfl _ _ _
      (by norm_num) (by norm_num) (by norm_num) (by norm_num) (by norm_num) (by norm_num)]
  norm_num
  rw [Visualization.integrateGo_uniformField_step' (1/10) 1 4 3 rfl _ _ _
      (by norm_num) (by norm_num) (by norm_num) (by norm_num) (by norm_num) (by norm_num)]
  norm_num
  rw [Visualization.integrateGo_uniformField_step' (1/10) 1 3 2 rfl _ _ _
      (by norm_num) (by norm_num) (by norm_num) (by norm_num) (by norm_num) (by norm_num)]
  norm_num [Visualization.Point.mk.injEq]

/-- C9 counterexample: in scenario C (single seed at the field-bound
center, uniform field (1, 0), stepSize 0.1, lineLength 1) the integrated
streamline does not have 10 points: the length-cap check runs only after
appending, and 10 * 0.1 does not exceed lineLength 1, so an 11th point is
appended before the loop breaks. -/
theorem claim_C9_counterexample_not_ten_points :
    ¬ (Visualization.integrateLine Visualization.uniformField 0 0 10 10 (1/10) 12 1 5 5).length
      = 10 := by
  rw [integrateLine_scenarioC]
  norm_num

/-- C9 (amended): in scenario C the integrated streamline consists of
exactly 11 points, the seed plus 10 steps each advancing along +x by
0.1 (point k is (5 + k / 10, 5)). -/
theorem claim_C9_scenarioC_eleven_point_streamline :
    (Visualization.integrateLine Visualization.uniformField 0 0 10 10 (1/10) 12 1 5 5).length
      = 11
    ∧ Visualization.integrateLine Visualization.uniformField 0 0 10 10 (1/10) 12 1 5 5
      = (List.range 11).map fun (k : ℕ) => (⟨5 + (k : ℝ) / 10, 5⟩ : Visualization.Point) := by
  constructor
  · rw [integrateLine_scenarioC]
    rfl
  · rw [integrateLine_scenarioC, show List.range 11 = [0, 1, 2, 3, 4, 5, 6, 7, 8, 9, 10]
      from rfl]
    norm_num [Visualization.Point.mk.injEq]
